import Mathlib

/-!
kvtool `subscribe-auctions`: auction alerts forwarded to Telegram

A shallow embedding of `cmd/auction-telegram-alerts.go`.

* Go strings are Lean `String`s, a `[]string` is a `StringSlice` (nil or a sequence).
* `fmt.Sprintf` is interpreted over the format string (`Sprintf`), for string operands.
* The effects of the program (logger calls, the outbound HTTP form posts, entry into
  `SendTelegramMessage`) are recorded in chronological order in a `Trace`.
* The Telegram endpoint is an environment `Network` that decides the outcome of each request;
  the URL check that `httpClient.PostForm` makes before it sends anything is a `URLCheck`.
* The codec `cdc` is a parameter of `SubscribeAuctionsCmd`, and is a parameter here (`Codec`).
* A Go run-time panic and `log.Fatalf` end the process: the loop state becomes `Terminated`.
-/

set_option autoImplicit false

namespace Kvtool

/-! ## Go slices and indexing -/

/-- A Go `[]string` value. `none` is the nil slice (the zero value, what a decoder leaves in a
field whose key is absent), `some xs` a slice with elements `xs`. -/
abbrev StringSlice := Option (List String)

/-- The elements of a slice; the nil slice has none. -/
def elems (s : StringSlice) : List String :=
  match s with
  | none => []
  | some xs => xs

/-- Go `len(s)`; `len(nil) = 0`. -/
def len (s : StringSlice) : Nat := (elems s).length

/-- A Go run-time panic. The only one this program can raise by itself is
`index out of range [index] with length length`. -/
inductive RuntimePanic where
  | indexOutOfRange (index length : Nat)
  deriving DecidableEq, Repr

/-- The index of the failing access. -/
def RuntimePanic.index : RuntimePanic → Nat
  | .indexOutOfRange i _ => i

/-- Go `s[idx]`: the element, or a run-time panic when `idx` is not below `len(s)`. -/
def index (s : StringSlice) (idx : Nat) : Except RuntimePanic String :=
  match (elems s)[idx]? with
  | some v => .ok v
  | none => .error (.indexOutOfRange idx (len s))

/-! ## `fmt.Sprintf` for string operands -/

/-- Go's rendering of a verb that has no operand left: `%!c(MISSING)`. -/
def missingOperand (c : Char) : List Char :=
  ['%', '!', c] ++ "(MISSING)".data

/-- Go's rendering of a string operand under a verb that does not apply to strings:
`%!c(string=operand)`. -/
def badVerb (c : Char) (operand : String) : List Char :=
  ['%', '!', c] ++ "(string=".data ++ operand.data ++ [')']

/-- Go's rendering of operands left over at the end of the format:
`%!(EXTRA string=a, string=b)`. -/
def extraOperands : List String → List Char
  | [] => []
  | a :: rest =>
    "%!(EXTRA string=".data ++ a.data ++
      (rest.map (fun b => ", string=".data ++ b.data)).flatten ++ [')']

/-- The formatting loop of `fmt.Sprintf` on the characters of the format, for operands that are
strings. The flag says that the preceding character was an unconsumed `%`. The verbs `%s` and
`%v` copy the operand, `%%` is a literal percent sign. Flags, widths and the verbs `%q`, `%x`,
`%X` are outside this fragment (the program uses `%s` only). -/
def sprintfAux : Bool → List Char → List String → List Char
  | false, [], operands => extraOperands operands
  | true, [], operands => "%!(NOVERB)".data ++ extraOperands operands
  | false, c :: rest, operands =>
    if c = '%' then sprintfAux true rest operands
    else c :: sprintfAux false rest operands
  | true, c :: rest, operands =>
    if c = '%' then '%' :: sprintfAux false rest operands
    else
      match operands with
      | [] => missingOperand c ++ sprintfAux false rest []
      | a :: operands' =>
        (if c = 's' ∨ c = 'v' then a.data else badVerb c a) ++ sprintfAux false rest operands'

/-- Go `fmt.Sprintf(format, operands...)` with string operands. -/
def Sprintf (format : String) (operands : List String) : String :=
  String.mk (sprintfAux false format.data operands)

/-! ## Data model -/

/-- The Go struct `BlockEvents`: one slice per JSON key of a block's event batch. -/
structure BlockEvents where
  MintBondedRatio : StringSlice
  ProposerRewardAmount : StringSlice
  CommissionValidator : StringSlice
  KavadistKavaDistInflation : StringSlice
  SwapsExpiredAtomicSwapIds : StringSlice
  SwapsExpiredExpirationBlock : StringSlice
  RewardsValidator : StringSlice
  LivenessMissedBlocks : StringSlice
  ProposerRewardValidator : StringSlice
  TmEvent : StringSlice
  TransferRecipient : StringSlice
  MintInflation : StringSlice
  LivenessHeight : StringSlice
  LivenessAddress : StringSlice
  TransferAmount : StringSlice
  MessageSender : StringSlice
  RewardsAmount : StringSlice
  MintAnnualProvisions : StringSlice
  CommissionAmount : StringSlice
  MintAmount : StringSlice
  AuctionStartAuctionID : StringSlice
  AuctionStartAuctionType : StringSlice
  AuctionStartBid : StringSlice
  AuctionStartLot : StringSlice
  AuctionStartMaxBid : StringSlice
  deriving DecidableEq, Repr

/-- The Go struct `AuctionAlert`. -/
structure AuctionAlert where
  ID : String
  AuctionType : String
  Bid : String
  Lot : String
  MaxBid : String
  deriving DecidableEq, Repr

/-- Go `NewAuctionAlert(id, atype, bid, lot, maxbid)`. -/
def NewAuctionAlert (id atype bid lot maxbid : String) : AuctionAlert :=
  AuctionAlert.mk id atype bid lot maxbid

/-- The raw string literal passed to `fmt.Sprintf` in `AuctionAlert.String`: the lines of the
source between the back quotes, each indented by one tab. -/
def alertFormat : String :=
  "\n\tNew Auction Started:\n\tID: %s\n\tType: %s\n\tBid: %s\n\tLot %s\n\tMax Bid %s\n\t"

/-- Go `func (aa AuctionAlert) String() string`. -/
def AuctionAlert.String (aa : AuctionAlert) : String :=
  Sprintf alertFormat [aa.ID, aa.AuctionType, aa.Bid, aa.Lot, aa.MaxBid]

/-! ## Effects -/

/-- The form post built by `SendTelegramMessage`: the client timeout in seconds, the endpoint
and the three form values. -/
structure HttpRequest where
  timeoutSeconds : Nat
  endPoint : String
  chat_id : String
  parse_mode : String
  text : String
  deriving DecidableEq, Repr

/-- The check that `httpClient.PostForm` makes on the endpoint before anything is sent (the
URL parsing of `http.NewRequest`): the error it returns for an endpoint it rejects, `none` for
an endpoint it accepts. -/
abbrev URLCheck := String → Option String

/-- What happens to a request that `httpClient.PostForm` has handed to the transport, followed
by `ioutil.ReadAll(res.Body)`: a response whose body is read, a transport failure (`PostForm`
returns an error), or a response whose body cannot be read. -/
inductive Outcome where
  | success (body : String)
  | transportError (err : String)
  | readError (err : String)
  deriving DecidableEq, Repr

/-- The notification service and the network in front of it: the outcome of a request, given
the requests made before it and the request itself. -/
abbrev Network := List HttpRequest → HttpRequest → Outcome

/-- An observable step of the program. `printf` and `fatalf` carry the formatted message (the
logger adds a time stamp and a line end), `println` the value handed to `log.Println`,
`call` marks entry into `SendTelegramMessage` with its three arguments, `postForm` is a request
that `httpClient.PostForm` hands to the transport (an endpoint that fails the URL check gives
none). -/
inductive Event where
  | println (alert : AuctionAlert)
  | printf (line : String)
  | fatalf (line : String)
  | call (botId chatId msg : String)
  | postForm (req : HttpRequest)
  | bodyClose
  deriving DecidableEq, Repr

/-- The steps of a run, oldest first. -/
abbrev Trace := List Event

/-- The outbound HTTP requests of a trace, in order. -/
def requestsOf (t : Trace) : List HttpRequest :=
  t.filterMap (fun e => match e with
    | .postForm r => some r
    | _ => none)

/-- The calls of `SendTelegramMessage` of a trace, in order, as (botId, chatId, msg). -/
def callsOf (t : Trace) : List (String × String × String) :=
  t.filterMap (fun e => match e with
    | .call b c m => some (b, c, m)
    | _ => none)

/-- The `AuctionAlert` records of a trace, in order (each is logged as it is constructed). -/
def alertsOf (t : Trace) : List AuctionAlert :=
  t.filterMap (fun e => match e with
    | .println a => some a
    | _ => none)

/-- Go `SendTelegramMessage(botId, chatId, msg)`. It returns no value and raises nothing; its
effects are appended to the trace. `httpClient.PostForm` returns an error either because the
endpoint fails the URL check, and then no request is made, or because the transport fails.
(The comment on line 79 announces an identifier in front of the message; line 80 copies the
message as it is.) -/
def SendTelegramMessage (check : URLCheck) (net : Network) (botId chatId msg : String)
    (t : Trace) : Trace :=
  let t0 := t ++ [Event.call botId chatId msg]
  if botId = "" ∨ chatId = "" ∨ msg = "" then t0
  else
    let tgMsg := Sprintf "%s" [msg]
    let endPoint := Sprintf "https://api.telegram.org/bot%s/sendMessage" [botId]
    let req := HttpRequest.mk 10 endPoint chatId "html" tgMsg
    let t1 := t0 ++ [Event.printf
      (Sprintf "send tg message, bot_id=%s, chat_id=%s, msg=%s" [botId, chatId, tgMsg])]
    match check endPoint with
    | some err =>
      t1 ++ [Event.printf
        (Sprintf "send telegram message error, bot_id=%s, chat_id=%s, msg=%s, err=%s"
          [botId, chatId, tgMsg, err])]
    | none =>
      let t2 := t1 ++ [Event.postForm req]
      match net (requestsOf t0) req with
      | .transportError err =>
        t2 ++ [Event.printf
          (Sprintf "send telegram message error, bot_id=%s, chat_id=%s, msg=%s, err=%s"
            [botId, chatId, tgMsg, err])]
      | .readError err =>
        t2 ++ [Event.printf (Sprintf "read http response error, err=%s" [err]), Event.bodyClose]
      | .success body =>
        t2 ++ [Event.printf (Sprintf "tg response: %s" [body]), Event.bodyClose]

/-! ## The listening loop -/

/-- The codec handed to `SubscribeAuctionsCmd`, as far as the command uses it: it serialises the
events of a block and decodes the bytes into a `BlockEvents`. Errors are their message. -/
structure Codec (Events Bytes : Type) where
  MarshalJSONIndent : Events → Except String Bytes
  UnmarshalJSON : Bytes → Except String BlockEvents

/-- Why the process ended: `panic(err)` after a failed `MarshalJSONIndent`, `log.Fatalf` (which
exits with the given status) after a failed `UnmarshalJSON`, or a run-time panic. -/
inductive Termination where
  | panic (err : String)
  | fatal (exitStatus : Nat)
  | runtimePanic (p : RuntimePanic)
  deriving DecidableEq, Repr

/-- The state of the subscription loop after the subscription is open. -/
inductive LoopState where
  | Listening
  | Terminated (cause : Termination)
  deriving DecidableEq, Repr

/-- The body of `for idx := range blockEvents.AuctionStartAuctionID`: the five index
expressions are evaluated left to right, the alert is built, logged and sent. -/
def loopBody (check : URLCheck) (net : Network) (botID chatID : String) (blockEvents : BlockEvents) (idx : Nat)
    (t : Trace) : Except RuntimePanic Trace := do
  let id ← index blockEvents.AuctionStartAuctionID idx
  let atype ← index blockEvents.AuctionStartAuctionType idx
  let bid ← index blockEvents.AuctionStartBid idx
  let lot ← index blockEvents.AuctionStartLot idx
  let maxbid ← index blockEvents.AuctionStartMaxBid idx
  let alert := NewAuctionAlert id atype bid lot maxbid
  let t1 := t ++ [Event.println alert]
  pure (SendTelegramMessage check net botID chatID alert.String t1)

/-- A Go `for` over the given indices; a panic in the body ends the loop, and what was done
before it stays done. -/
def forRange (body : Nat → Trace → Except RuntimePanic Trace) :
    List Nat → Trace → Trace × Option RuntimePanic
  | [], t => (t, none)
  | idx :: rest, t =>
    match body idx t with
    | .error p => (t, some p)
    | .ok t1 => forRange body rest t1

/-- Lines 147 to 153: `if len(ids) > 0 { for idx := range ids { ... } }`. -/
def handleBlockEvents (check : URLCheck) (net : Network) (botID chatID : String) (blockEvents : BlockEvents)
    (t : Trace) : Trace × Option RuntimePanic :=
  if len blockEvents.AuctionStartAuctionID > 0 then
    forRange (loopBody check net botID chatID blockEvents)
      (List.range (len blockEvents.AuctionStartAuctionID)) t
  else (t, none)

/-- One turn of the `for` loop of `RunE`, for the event received from the channel. -/
def loopIteration {Events Bytes : Type} (cdc : Codec Events Bytes) (check : URLCheck) (net : Network)
    (botID chatID : String) (event : Events) (t : Trace) : LoopState × Trace :=
  match cdc.MarshalJSONIndent event with
  | .error err => (.Terminated (.panic err), t)
  | .ok bz =>
    match cdc.UnmarshalJSON bz with
    | .error err =>
      (.Terminated (.fatal 1),
        t ++ [Event.fatalf (Sprintf "failed to unmarshal from events: %s " [err])])
    | .ok blockEvents =>
      match handleBlockEvents check net botID chatID blockEvents t with
      | (t1, some p) => (.Terminated (.runtimePanic p), t1)
      | (t1, none) => (.Listening, t1)

/-- The loop of `RunE` on the events that arrive on the channel, in order: it goes on as long
as the state is `Listening`. -/
def listen {Events Bytes : Type} (cdc : Codec Events Bytes) (check : URLCheck) (net : Network)
    (botID chatID : String) : List Events → Trace → LoopState × Trace
  | [], t => (.Listening, t)
  | event :: rest, t =>
    match loopIteration cdc check net botID chatID event t with
    | (.Listening, t1) => listen cdc check net botID chatID rest t1
    | stopped => stopped

/-! ## The event codec -/

/-- Modelled from the spec: the value under one key of a raw event-batch payload. The payload
maps compound keys to arrays of strings; `other` stands for content that does not match that
schema. -/
inductive RawValue where
  | strings (xs : List String)
  | other
  deriving DecidableEq, Repr

/-- Modelled from the spec: a raw serialized event-batch payload, a mapping from
`"<category>.<attribute>"` keys to values, as a list of entries. -/
abbrev Payload := List (String × RawValue)

/-- The JSON keys of the struct tags of `BlockEvents`, in field order. -/
def schemaKeys : List String :=
  ["mint.bonded_ratio",
   "proposer_reward.amount",
   "commission.validator",
   "kavadist.kava_dist_inflation",
   "swaps_expired.atomic_swap_ids",
   "swaps_expired.expiration_block",
   "rewards.validator",
   "liveness.missed_blocks",
   "proposer_reward.validator",
   "tm.event",
   "transfer.recipient",
   "mint.inflation",
   "liveness.height",
   "liveness.address",
   "transfer.amount",
   "message.sender",
   "rewards.amount",
   "mint.annual_provisions",
   "commission.amount",
   "mint.amount",
   "auction_start.auction_id",
   "auction_start.auction_type",
   "auction_start.bid",
   "auction_start.lot",
   "auction_start.max_bid"]

/-- Modelled from the spec: decoding of one field of `BlockEvents` by the codec (go-amino, which
is not part of the source). The field gets the array under its key, stays nil when the key is
absent, and the decoding fails when the content does not match the schema. -/
def decodeField (payload : Payload) (key : String) : Except String StringSlice :=
  match payload.lookup key with
  | none => .ok none
  | some (.strings xs) => .ok (some xs)
  | some .other => .error ("cannot decode the value of " ++ key ++ " into []string")

/-- Modelled from the spec: `cdc.UnmarshalJSON(bz, &blockEvents)` of the codec (go-amino, which
is not part of the source). Each field of `BlockEvents` is decoded from the key of its struct
tag, in field order; keys of the payload that no field names are dropped. -/
def UnmarshalJSON (payload : Payload) : Except String BlockEvents := do
  let f1 ← decodeField payload "mint.bonded_ratio"
  let f2 ← decodeField payload "proposer_reward.amount"
  let f3 ← decodeField payload "commission.validator"
  let f4 ← decodeField payload "kavadist.kava_dist_inflation"
  let f5 ← decodeField payload "swaps_expired.atomic_swap_ids"
  let f6 ← decodeField payload "swaps_expired.expiration_block"
  let f7 ← decodeField payload "rewards.validator"
  let f8 ← decodeField payload "liveness.missed_blocks"
  let f9 ← decodeField payload "proposer_reward.validator"
  let f10 ← decodeField payload "tm.event"
  let f11 ← decodeField payload "transfer.recipient"
  let f12 ← decodeField payload "mint.inflation"
  let f13 ← decodeField payload "liveness.height"
  let f14 ← decodeField payload "liveness.address"
  let f15 ← decodeField payload "transfer.amount"
  let f16 ← decodeField payload "message.sender"
  let f17 ← decodeField payload "rewards.amount"
  let f18 ← decodeField payload "mint.annual_provisions"
  let f19 ← decodeField payload "commission.amount"
  let f20 ← decodeField payload "mint.amount"
  let f21 ← decodeField payload "auction_start.auction_id"
  let f22 ← decodeField payload "auction_start.auction_type"
  let f23 ← decodeField payload "auction_start.bid"
  let f24 ← decodeField payload "auction_start.lot"
  let f25 ← decodeField payload "auction_start.max_bid"
  pure (BlockEvents.mk f1 f2 f3 f4 f5 f6 f7 f8 f9 f10 f11 f12 f13 f14 f15 f16 f17 f18 f19 f20 f21 f22 f23 f24 f25)

/-- Modelled from the spec: the codec of the command on event batches; serialising the events
of a block gives the raw payload. -/
def eventCodec : Codec Payload Payload :=
  Codec.mk (fun events => .ok events) UnmarshalJSON

/-- A codec whose decoding results are given with the events: the event is the result that
`UnmarshalJSON` returns for it. -/
def scriptedCodec : Codec (Except String BlockEvents) (Except String BlockEvents) :=
  Codec.mk (fun event => .ok event) (fun bz => bz)

/-! ## Specification vocabulary -/

/-- The alert that the loop builds at index `i` when all five arrays reach that index. -/
def alertAt (blockEvents : BlockEvents) (i : Nat) : AuctionAlert :=
  NewAuctionAlert
    ((elems blockEvents.AuctionStartAuctionID)[i]?.getD "")
    ((elems blockEvents.AuctionStartAuctionType)[i]?.getD "")
    ((elems blockEvents.AuctionStartBid)[i]?.getD "")
    ((elems blockEvents.AuctionStartLot)[i]?.getD "")
    ((elems blockEvents.AuctionStartMaxBid)[i]?.getD "")

/-- Logging one alert and handing its text to the notifier. -/
def notify (check : URLCheck) (net : Network) (botID chatID : String) (t : Trace) (alert : AuctionAlert) : Trace :=
  SendTelegramMessage check net botID chatID alert.String (t ++ [Event.println alert])

/-- The endpoint that `SendTelegramMessage` builds for a bot identifier. -/
def telegramEndPoint (botId : String) : String :=
  "https://api.telegram.org/bot" ++ botId ++ "/sendMessage"

/-- The form post that `SendTelegramMessage` makes for a message. -/
def telegramRequest (botId chatId msg : String) : HttpRequest :=
  HttpRequest.mk 10 (telegramEndPoint botId) chatId "html" msg

/-- The smallest length among the four arrays that accompany the identifiers. -/
def companionLen (blockEvents : BlockEvents) : Nat :=
  min (len blockEvents.AuctionStartAuctionType)
    (min (len blockEvents.AuctionStartBid)
      (min (len blockEvents.AuctionStartLot) (len blockEvents.AuctionStartMaxBid)))

/-- A batch with the given five auction-start arrays and no other event. -/
def auctionBatch (ids types bids lots maxBids : StringSlice) : BlockEvents :=
  BlockEvents.mk none none none none none none none none none none none none none none none
    none none none none none ids types bids lots maxBids

/-! ## The URL check of Go's HTTP client -/

/-- Go `stringContainsCTLByte`: an ASCII control character. -/
def isCTL (c : Char) : Bool := c.toNat < 32 || c.toNat == 127

/-- Go `ishex`. -/
def ishex (c : Char) : Bool :=
  ('0' ≤ c && c ≤ '9') || ('a' ≤ c && c ≤ 'f') || ('A' ≤ c && c ≤ 'F')

/-- The percent-escape scan of Go `unescape` for a path or a fragment: every `%` has to be
followed by two hexadecimal digits. The result is the offending escape (at most three
characters from its `%`), or `none` when all escapes are valid. The first argument holds the
characters of the escape being read. -/
def invalidEscape : List Char → List Char → Option (List Char)
  | [], [] => none
  | pending, [] => some pending
  | [], c :: rest =>
    if c = '%' then invalidEscape ['%'] rest else invalidEscape [] rest
  | pending, c :: rest =>
    if ishex c then
      if pending.length = 2 then invalidEscape [] rest else invalidEscape (pending ++ [c]) rest
    else some ((pending ++ c :: rest).take 3)

/-- The text of the error of `url.Parse` for the given URL and cause (Go 1.14 and later, for
printable ASCII). -/
def parseError (url : List Char) (cause : String) : String :=
  "parse \"" ++ String.mk url ++ "\": " ++ cause

/-- Go `url.Parse` (standard library) on the endpoints that `SendTelegramMessage` builds,
`https://api.telegram.org/bot<botId>/sendMessage`: scheme and host are fixed, so the checks
that can fail are those on the bot identifier. The fragment is cut off at the first `#`; what
stands before it must hold no control character; the query is cut off at the first `?` and is
not inspected; the path and the fragment must hold valid percent escapes only. -/
def goURLCheck : URLCheck := fun rawurl =>
  let u := rawurl.data.takeWhile (fun c => c ≠ '#')
  let frag := (rawurl.data.dropWhile (fun c => c ≠ '#')).drop 1
  if u.any isCTL then some (parseError u "net/url: invalid control character in URL")
  else
    match invalidEscape [] (u.takeWhile (fun c => c ≠ '?')) with
    | some e => some (parseError u ("invalid URL escape \"" ++ String.mk e ++ "\""))
    | none =>
      match invalidEscape [] frag with
      | some e =>
        some (parseError rawurl.data ("invalid URL escape \"" ++ String.mk e ++ "\""))
      | none => none

/-! ## Concrete inputs -/

/-- The batch of the specification's example: one auction. -/
def exampleBatch : BlockEvents :=
  auctionBatch (some ["7"]) (some ["collateral"]) (some ["100ukava"]) (some ["50ukava"])
    (some ["500ukava"])

/-- A batch with two auctions. -/
def twoAuctions : BlockEvents :=
  auctionBatch (some ["7", "8"]) (some ["collateral", "surplus"]) (some ["100ukava", "0ukava"])
    (some ["50ukava", "9ukava"]) (some ["500ukava", "600ukava"])

/-- A batch with three identifiers whose bid array has one element only. -/
def shortBatch : BlockEvents :=
  auctionBatch (some ["7", "8", "9"]) (some ["collateral", "surplus", "debt"])
    (some ["100ukava"]) (some ["50ukava", "9ukava", "1ukava"])
    (some ["500ukava", "600ukava", "700ukava"])

/-- A batch without any `auction_start` key: all fields are nil. -/
def noAuctions : BlockEvents :=
  auctionBatch none none none none none

/-- The five keys of the `auction_start` category. -/
def auctionKeys : List String :=
  ["auction_start.auction_id", "auction_start.auction_type", "auction_start.bid",
   "auction_start.lot", "auction_start.max_bid"]

/-- The raw payload of the specification's example. -/
def examplePayload : Payload :=
  [("auction_start.auction_id", .strings ["7"]),
   ("auction_start.auction_type", .strings ["collateral"]),
   ("auction_start.bid", .strings ["100ukava"]),
   ("auction_start.lot", .strings ["50ukava"]),
   ("auction_start.max_bid", .strings ["500ukava"])]

/-- A network on which every post succeeds. -/
def reliableNetwork : Network := fun _ _ => .success "ok"

/-- A network on which the second post fails in transport and every other post succeeds. -/
def secondAttemptFails : Network := fun earlier _ =>
  if earlier.length = 1 then .transportError "timeout" else .success "ok"

/-! ## Lemmas: formatting -/

theorem Sprintf_verbatim (msg : String) : Sprintf "%s" [msg] = msg := by
  simp [Sprintf, sprintfAux, extraOperands]

theorem Sprintf_endPoint (botId : String) :
    Sprintf "https://api.telegram.org/bot%s/sendMessage" [botId]
      = "https://api.telegram.org/bot" ++ botId ++ "/sendMessage" := by
  simp only [String.append_assoc]
  rfl

theorem String_layout (a : AuctionAlert) :
    a.String = "\n\tNew Auction Started:\n\tID: " ++ a.ID ++ "\n\tType: " ++ a.AuctionType
      ++ "\n\tBid: " ++ a.Bid ++ "\n\tLot " ++ a.Lot ++ "\n\tMax Bid " ++ a.MaxBid ++ "\n\t" := by
  simp only [String.append_assoc]
  rfl

theorem String_ne_empty (a : AuctionAlert) : a.String ≠ "" := by
  intro h
  have hd : (a.String).data = [] := by rw [h]
  exact List.cons_ne_nil _ _ hd

/-! ## Lemmas: traces -/

@[simp]
theorem requestsOf_append (t u : Trace) :
    requestsOf (t ++ u) = requestsOf t ++ requestsOf u := by
  simp [requestsOf]

@[simp]
theorem callsOf_append (t u : Trace) : callsOf (t ++ u) = callsOf t ++ callsOf u := by
  simp [callsOf]

@[simp]
theorem alertsOf_append (t u : Trace) : alertsOf (t ++ u) = alertsOf t ++ alertsOf u := by
  simp [alertsOf]

theorem SendTelegramMessage_guard (check : URLCheck) (net : Network) (botId chatId msg : String) (t : Trace)
    (h : botId = "" ∨ chatId = "" ∨ msg = "") :
    SendTelegramMessage check net botId chatId msg t = t ++ [Event.call botId chatId msg] := by
  simp [SendTelegramMessage, h]

theorem callsOf_SendTelegramMessage (check : URLCheck) (net : Network)
    (botId chatId msg : String) (t : Trace) :
    callsOf (SendTelegramMessage check net botId chatId msg t)
      = callsOf t ++ [(botId, chatId, msg)] := by
  unfold SendTelegramMessage
  split
  · simp [callsOf]
  · dsimp only
    split
    · simp [callsOf]
    · split <;> simp [callsOf]

theorem alertsOf_SendTelegramMessage (check : URLCheck) (net : Network)
    (botId chatId msg : String) (t : Trace) :
    alertsOf (SendTelegramMessage check net botId chatId msg t) = alertsOf t := by
  unfold SendTelegramMessage
  split
  · simp [alertsOf]
  · dsimp only
    split
    · simp [alertsOf]
    · split <;> simp [alertsOf]

theorem requestsOf_SendTelegramMessage (check : URLCheck) (net : Network)
    (botId chatId msg : String) (t : Trace) :
    requestsOf (SendTelegramMessage check net botId chatId msg t)
      = requestsOf t ++
        (if botId = "" ∨ chatId = "" ∨ msg = "" then []
          else if (check (telegramEndPoint botId)).isSome then []
          else [telegramRequest botId chatId msg]) := by
  unfold SendTelegramMessage
  split
  · simp [requestsOf]
  · dsimp only
    rw [Sprintf_endPoint, Sprintf_verbatim]
    split
    · rename_i hrej
      simp [requestsOf, telegramEndPoint, hrej]
    · rename_i hacc
      split <;> simp [requestsOf, telegramRequest, telegramEndPoint, hacc]

/-! ## Lemmas: the loop -/

theorem index_ok (s : StringSlice) (i : Nat) (h : i < len s) :
    index s i = .ok ((elems s)[i]?.getD "") := by
  have h1 : i < (elems s).length := h
  simp [index, List.getElem?_eq_getElem h1]

theorem index_error (s : StringSlice) (i : Nat) (h : len s ≤ i) :
    index s i = .error (.indexOutOfRange i (len s)) := by
  have h1 : (elems s).length ≤ i := h
  simp [index, List.getElem?_eq_none h1]

theorem loopBody_ok (check : URLCheck) (net : Network) (botID chatID : String) (be : BlockEvents) (i : Nat)
    (t : Trace) (h0 : i < len be.AuctionStartAuctionID) (h : i < companionLen be) :
    loopBody check net botID chatID be i t = .ok (notify check net botID chatID t (alertAt be i)) := by
  simp only [companionLen, lt_min_iff] at h
  obtain ⟨h1, h2, h3, h4⟩ := h
  simp only [loopBody, index_ok _ _ h0, index_ok _ _ h1, index_ok _ _ h2, index_ok _ _ h3,
    index_ok _ _ h4, notify, alertAt]
  rfl

theorem loopBody_error (check : URLCheck) (net : Network) (botID chatID : String) (be : BlockEvents) (i : Nat)
    (t : Trace) (h0 : i < len be.AuctionStartAuctionID) (h : companionLen be ≤ i) :
    ∃ n, loopBody check net botID chatID be i t = .error (.indexOutOfRange i n) := by
  by_cases h1 : i < len be.AuctionStartAuctionType
  · by_cases h2 : i < len be.AuctionStartBid
    · by_cases h3 : i < len be.AuctionStartLot
      · have h4 : len be.AuctionStartMaxBid ≤ i := by
          simp only [companionLen, min_le_iff] at h
          omega
        refine ⟨len be.AuctionStartMaxBid, ?_⟩
        simp only [loopBody, index_ok _ _ h0, index_ok _ _ h1, index_ok _ _ h2,
          index_ok _ _ h3, index_error _ _ h4]
        rfl
      · refine ⟨len be.AuctionStartLot, ?_⟩
        simp only [loopBody, index_ok _ _ h0, index_ok _ _ h1, index_ok _ _ h2,
          index_error _ _ (Nat.le_of_not_lt h3)]
        rfl
    · refine ⟨len be.AuctionStartBid, ?_⟩
      simp only [loopBody, index_ok _ _ h0, index_ok _ _ h1,
        index_error _ _ (Nat.le_of_not_lt h2)]
      rfl
  · refine ⟨len be.AuctionStartAuctionType, ?_⟩
    simp only [loopBody, index_ok _ _ h0, index_error _ _ (Nat.le_of_not_lt h1)]
    rfl

theorem forRange_append (body : Nat → Trace → Except RuntimePanic Trace) (l1 l2 : List Nat)
    (t : Trace) :
    forRange body (l1 ++ l2) t =
      match forRange body l1 t with
      | (t1, none) => forRange body l2 t1
      | (t1, some p) => (t1, some p) := by
  induction l1 generalizing t with
  | nil => simp [forRange]
  | cons i rest ih =>
    simp only [List.cons_append, forRange]
    cases body i t with
    | error p => simp
    | ok t1 => simpa using ih t1

theorem forRange_all_ok (check : URLCheck) (net : Network) (botID chatID : String) (be : BlockEvents) (n s : Nat)
    (t : Trace) (h0 : s + n ≤ len be.AuctionStartAuctionID) (h : s + n ≤ companionLen be) :
    forRange (loopBody check net botID chatID be) (List.range' s n) t
      = (((List.range' s n).map (alertAt be)).foldl (notify check net botID chatID) t, none) := by
  induction n generalizing s t with
  | zero => simp [forRange]
  | succ n ih =>
    have hb := loopBody_ok check net botID chatID be s t (by omega) (by omega)
    simp only [List.range'_succ, forRange, hb, List.map_cons, List.foldl_cons]
    exact ih (s + 1) _ (by omega) (by omega)

theorem handleBlockEvents_aligned (check : URLCheck) (net : Network) (botID chatID : String) (be : BlockEvents)
    (t : Trace) (h : len be.AuctionStartAuctionID ≤ companionLen be) :
    handleBlockEvents check net botID chatID be t
      = (((List.range (len be.AuctionStartAuctionID)).map (alertAt be)).foldl
          (notify check net botID chatID) t, none) := by
  unfold handleBlockEvents
  split
  · rw [List.range_eq_range']
    exact forRange_all_ok check net botID chatID be _ 0 t (by omega) (by omega)
  · have h0 : len be.AuctionStartAuctionID = 0 := by omega
    simp [h0]

theorem handleBlockEvents_short (check : URLCheck) (net : Network) (botID chatID : String) (be : BlockEvents)
    (t : Trace) (h : companionLen be < len be.AuctionStartAuctionID) :
    ∃ n, handleBlockEvents check net botID chatID be t
      = (((List.range (companionLen be)).map (alertAt be)).foldl (notify check net botID chatID) t,
          some (.indexOutOfRange (companionLen be) n)) := by
  obtain ⟨n, hn⟩ := loopBody_error check net botID chatID be (companionLen be)
    (((List.range (companionLen be)).map (alertAt be)).foldl (notify check net botID chatID) t)
    h (le_refl _)
  refine ⟨n, ?_⟩
  unfold handleBlockEvents
  have hpos : len be.AuctionStartAuctionID > 0 := by omega
  obtain ⟨m, hm⟩ : ∃ m, len be.AuctionStartAuctionID = companionLen be + (m + 1) :=
    ⟨len be.AuctionStartAuctionID - companionLen be - 1, by omega⟩
  have hsplit : List.range' 0 (companionLen be + (m + 1))
      = List.range' 0 (companionLen be) ++ List.range' (0 + companionLen be) (m + 1) := by
    rw [List.range'_append_1]
    congr 1
    omega
  simp only [List.range_eq_range'] at hn ⊢
  rw [if_pos hpos, hm, hsplit, forRange_append,
    forRange_all_ok check net botID chatID be _ 0 t (by omega) (by omega)]
  simp only [Nat.zero_add, List.range'_succ, forRange]
  rw [hn]

theorem getElem?_eq_some_getD (l : List String) (i : Nat) (h : i < l.length) :
    l[i]? = some (l[i]?.getD "") := by
  simp [List.getElem?_eq_getElem h]

theorem alertsOf_foldl_notify (check : URLCheck) (net : Network) (botID chatID : String) (as : List AuctionAlert)
    (t : Trace) :
    alertsOf (as.foldl (notify check net botID chatID) t) = alertsOf t ++ as := by
  induction as generalizing t with
  | nil => simp
  | cons a rest ih =>
    simp only [List.foldl_cons]
    rw [ih, notify, alertsOf_SendTelegramMessage]
    simp [alertsOf]

theorem callsOf_foldl_notify (check : URLCheck) (net : Network) (botID chatID : String) (as : List AuctionAlert)
    (t : Trace) :
    callsOf (as.foldl (notify check net botID chatID) t)
      = callsOf t ++ as.map (fun a => (botID, chatID, a.String)) := by
  induction as generalizing t with
  | nil => simp
  | cons a rest ih =>
    simp only [List.foldl_cons]
    rw [ih, notify, callsOf_SendTelegramMessage]
    simp [callsOf]

theorem requestsOf_foldl_notify (check : URLCheck) (net : Network) (botID chatID : String)
    (as : List AuctionAlert) (t : Trace) :
    requestsOf (as.foldl (notify check net botID chatID) t)
      = requestsOf t ++
        (if botID = "" ∨ chatID = "" ∨ (check (telegramEndPoint botID)).isSome then []
          else as.map (fun a => telegramRequest botID chatID a.String)) := by
  induction as generalizing t with
  | nil => simp
  | cons a rest ih =>
    simp only [List.foldl_cons]
    rw [ih, notify, requestsOf_SendTelegramMessage]
    have hne := String_ne_empty a
    by_cases hb : botID = ""
    · simp [hb, requestsOf]
    · by_cases hch : chatID = ""
      · simp [hch, requestsOf]
      · by_cases hrej : (check (telegramEndPoint botID)).isSome
        · simp [hb, hch, hne, hrej, requestsOf]
        · simp [hb, hch, hne, hrej, requestsOf]

theorem companionLen_ge (be : BlockEvents) (N : Nat)
    (hty : N ≤ len be.AuctionStartAuctionType) (hbid : N ≤ len be.AuctionStartBid)
    (hlot : N ≤ len be.AuctionStartLot) (hmax : N ≤ len be.AuctionStartMaxBid) :
    N ≤ companionLen be := by
  simp only [companionLen, le_min_iff]
  exact ⟨hty, hbid, hlot, hmax⟩

theorem loopIteration_decoded {Events Bytes : Type} (cdc : Codec Events Bytes) (check : URLCheck) (net : Network)
    (botID chatID : String) (event : Events) (bz : Bytes) (be : BlockEvents) (t : Trace)
    (hm : cdc.MarshalJSONIndent event = .ok bz) (hu : cdc.UnmarshalJSON bz = .ok be) :
    loopIteration cdc check net botID chatID event t =
      match handleBlockEvents check net botID chatID be t with
      | (t1, some p) => (.Terminated (.runtimePanic p), t1)
      | (t1, none) => (.Listening, t1) := by
  simp only [loopIteration, hm, hu]

/-! ## The claims -/

/-- C1: for a decoded batch whose five auction-start arrays all have length `N`, the loop
produces exactly `N` alert records, raises nothing, and the `i`-th record is
`NewAuctionAlert(id[i], type[i], bid[i], lot[i], max_bid[i])`. -/
theorem C1_one_alert_per_index (check : URLCheck) (net : Network) (botID chatID : String) (be : BlockEvents)
    (t : Trace) (N : Nat)
    (hid : len be.AuctionStartAuctionID = N) (hty : len be.AuctionStartAuctionType = N)
    (hbid : len be.AuctionStartBid = N) (hlot : len be.AuctionStartLot = N)
    (hmax : len be.AuctionStartMaxBid = N) :
    ∃ produced : List AuctionAlert,
      (handleBlockEvents check net botID chatID be t).2 = none ∧
      alertsOf (handleBlockEvents check net botID chatID be t).1 = alertsOf t ++ produced ∧
      produced.length = N ∧
      ∀ i, i < N → ∃ id atype bid lot maxbid,
        (elems be.AuctionStartAuctionID)[i]? = some id ∧
        (elems be.AuctionStartAuctionType)[i]? = some atype ∧
        (elems be.AuctionStartBid)[i]? = some bid ∧
        (elems be.AuctionStartLot)[i]? = some lot ∧
        (elems be.AuctionStartMaxBid)[i]? = some maxbid ∧
        produced[i]? = some (NewAuctionAlert id atype bid lot maxbid) ∧
        produced[i]? = some (AuctionAlert.mk id atype bid lot maxbid) := by
  have hc : len be.AuctionStartAuctionID ≤ companionLen be :=
    companionLen_ge be _ (by omega) (by omega) (by omega) (by omega)
  refine ⟨(List.range N).map (alertAt be), ?_, ?_, by simp, ?_⟩
  · rw [handleBlockEvents_aligned check net botID chatID be t hc]
  · rw [handleBlockEvents_aligned check net botID chatID be t hc, alertsOf_foldl_notify, hid]
  · intro i hi
    refine ⟨_, _, _, _, _,
      getElem?_eq_some_getD _ i (by rw [← hid] at hi; exact hi),
      getElem?_eq_some_getD _ i (by rw [← hty] at hi; exact hi),
      getElem?_eq_some_getD _ i (by rw [← hbid] at hi; exact hi),
      getElem?_eq_some_getD _ i (by rw [← hlot] at hi; exact hi),
      getElem?_eq_some_getD _ i (by rw [← hmax] at hi; exact hi), ?_, ?_⟩
    · simp [hi, alertAt]
    · simp [hi, alertAt, NewAuctionAlert]

/-- C1, on the batch of the specification's example: the single record is
(7, collateral, 100ukava, 50ukava, 500ukava). -/
theorem C1_one_alert_per_index_witness :
    (len exampleBatch.AuctionStartAuctionID = 1 ∧ len exampleBatch.AuctionStartAuctionType = 1 ∧
      len exampleBatch.AuctionStartBid = 1 ∧ len exampleBatch.AuctionStartLot = 1 ∧
      len exampleBatch.AuctionStartMaxBid = 1) ∧
    (∃ produced : List AuctionAlert,
      (handleBlockEvents goURLCheck reliableNetwork "bot" "chat" exampleBatch []).2 = none ∧
      alertsOf (handleBlockEvents goURLCheck reliableNetwork "bot" "chat" exampleBatch []).1
        = alertsOf [] ++ produced ∧
      produced.length = 1 ∧
      ∀ i, i < 1 → ∃ id atype bid lot maxbid,
        (elems exampleBatch.AuctionStartAuctionID)[i]? = some id ∧
        (elems exampleBatch.AuctionStartAuctionType)[i]? = some atype ∧
        (elems exampleBatch.AuctionStartBid)[i]? = some bid ∧
        (elems exampleBatch.AuctionStartLot)[i]? = some lot ∧
        (elems exampleBatch.AuctionStartMaxBid)[i]? = some maxbid ∧
        produced[i]? = some (NewAuctionAlert id atype bid lot maxbid) ∧
        produced[i]? = some (AuctionAlert.mk id atype bid lot maxbid)) ∧
    alertsOf (handleBlockEvents goURLCheck reliableNetwork "bot" "chat" exampleBatch []).1
      = [AuctionAlert.mk "7" "collateral" "100ukava" "50ukava" "500ukava"] :=
  ⟨⟨rfl, rfl, rfl, rfl, rfl⟩,
    C1_one_alert_per_index goURLCheck reliableNetwork "bot" "chat" exampleBatch [] 1 rfl rfl rfl rfl rfl,
    by decide⟩

/-- C2: when the identifier array of a decoded batch is nil (key absent) or empty, whatever the
other arrays hold, the loop body is not entered: the trace is unchanged (no alert record, no
call of `SendTelegramMessage`, no request), nothing is raised and the loop keeps listening. -/
theorem C2_no_identifiers_no_effect {Events Bytes : Type} (cdc : Codec Events Bytes)
    (check : URLCheck) (net : Network) (botID chatID : String) (event : Events) (bz : Bytes) (be : BlockEvents)
    (t : Trace)
    (hm : cdc.MarshalJSONIndent event = .ok bz) (hu : cdc.UnmarshalJSON bz = .ok be)
    (h : be.AuctionStartAuctionID = none ∨ be.AuctionStartAuctionID = some []) :
    handleBlockEvents check net botID chatID be t = (t, none) ∧
    alertsOf (handleBlockEvents check net botID chatID be t).1 = alertsOf t ∧
    callsOf (handleBlockEvents check net botID chatID be t).1 = callsOf t ∧
    loopIteration cdc check net botID chatID event t = (.Listening, t) := by
  have h0 : len be.AuctionStartAuctionID = 0 := by
    rcases h with h | h <;> simp [h, len, elems]
  have hh : handleBlockEvents check net botID chatID be t = (t, none) := by
    simp [handleBlockEvents, h0]
  refine ⟨hh, by rw [hh], by rw [hh], ?_⟩
  rw [loopIteration_decoded cdc check net botID chatID event bz be t hm hu, hh]

/-- C2, on a batch without any `auction_start` key, and on a batch whose identifier array is
empty while the other arrays are not. -/
theorem C2_no_identifiers_no_effect_witness :
    (noAuctions.AuctionStartAuctionID = none ∨ noAuctions.AuctionStartAuctionID = some []) ∧
    (handleBlockEvents goURLCheck reliableNetwork "bot" "chat" noAuctions [] = ([], none) ∧
      alertsOf (handleBlockEvents goURLCheck reliableNetwork "bot" "chat" noAuctions []).1 = alertsOf [] ∧
      callsOf (handleBlockEvents goURLCheck reliableNetwork "bot" "chat" noAuctions []).1 = callsOf [] ∧
      loopIteration scriptedCodec goURLCheck reliableNetwork "bot" "chat" (.ok noAuctions) []
        = (.Listening, [])) ∧
    handleBlockEvents goURLCheck reliableNetwork "bot" "chat"
      (auctionBatch (some []) (some ["collateral"]) none (some ["50ukava"]) none) []
      = ([], none) :=
  ⟨Or.inl rfl,
    C2_no_identifiers_no_effect scriptedCodec goURLCheck reliableNetwork "bot" "chat" (.ok noAuctions)
      (.ok noAuctions) noAuctions [] rfl rfl (Or.inl rfl),
    by decide⟩

/-- C3: the text of an alert is six fixed labels with the five field values between them,
verbatim and in the order identifier, type, bid, lot, max bid. -/
theorem C3_String_layout :
    ∃ s0 s1 s2 s3 s4 s5 : String,
      (s0, s1, s2, s3, s4, s5) = ("\n\tNew Auction Started:\n\tID: ", "\n\tType: ", "\n\tBid: ",
        "\n\tLot ", "\n\tMax Bid ", "\n\t") ∧
      ∀ a : AuctionAlert,
        a.String = s0 ++ a.ID ++ s1 ++ a.AuctionType ++ s2 ++ a.Bid ++ s3 ++ a.Lot ++ s4
          ++ a.MaxBid ++ s5 :=
  ⟨_, _, _, _, _, _, rfl, String_layout⟩

/-- C4: when the bot identifier, the chat identifier or the message is empty,
`SendTelegramMessage` returns at its guard: the outbound requests are unchanged and nothing is
logged (the trace only gains the record of the call itself). -/
theorem C4_guard_is_noop (check : URLCheck) (net : Network) (botId chatId msg : String) (t : Trace)
    (h : botId = "" ∨ chatId = "" ∨ msg = "") :
    requestsOf (SendTelegramMessage check net botId chatId msg t) = requestsOf t ∧
    SendTelegramMessage check net botId chatId msg t = t ++ [Event.call botId chatId msg] := by
  have hg := SendTelegramMessage_guard check net botId chatId msg t h
  refine ⟨?_, hg⟩
  rw [hg]
  simp [requestsOf]

/-- C4, with an empty chat identifier. -/
theorem C4_guard_is_noop_witness :
    ("bot" = "" ∨ "" = "" ∨ "hello" = "") ∧
    (requestsOf (SendTelegramMessage goURLCheck reliableNetwork "bot" "" "hello" []) = requestsOf [] ∧
      SendTelegramMessage goURLCheck reliableNetwork "bot" "" "hello" []
        = [] ++ [Event.call "bot" "" "hello"]) :=
  ⟨Or.inr (Or.inl rfl), C4_guard_is_noop goURLCheck reliableNetwork "bot" "" "hello" [] (Or.inr (Or.inl rfl))⟩

/-- C5: for a batch with `N` well-formed occurrences, whatever the outcomes of the attempts
(any two networks `net1`, `net2`), processing raises nothing and the loop keeps listening, all
`N` occurrences are processed, the calls of the notifier and the requests sent are the same
under both networks, and the loop goes on with the next batch. -/
theorem C5_delivery_failures_absorbed {Events Bytes : Type} (cdc : Codec Events Bytes)
    (check : URLCheck) (net1 net2 : Network) (botID chatID : String) (event : Events) (rest : List Events)
    (bz : Bytes) (be : BlockEvents) (t : Trace) (N : Nat)
    (hm : cdc.MarshalJSONIndent event = .ok bz) (hu : cdc.UnmarshalJSON bz = .ok be)
    (hid : len be.AuctionStartAuctionID = N) (hty : len be.AuctionStartAuctionType = N)
    (hbid : len be.AuctionStartBid = N) (hlot : len be.AuctionStartLot = N)
    (hmax : len be.AuctionStartMaxBid = N) :
    (loopIteration cdc check net1 botID chatID event t).1 = .Listening ∧
    alertsOf (loopIteration cdc check net1 botID chatID event t).2
      = alertsOf t ++ (List.range N).map (alertAt be) ∧
    callsOf (loopIteration cdc check net1 botID chatID event t).2
      = callsOf t ++ (List.range N).map (fun i => (botID, chatID, (alertAt be i).String)) ∧
    callsOf (loopIteration cdc check net1 botID chatID event t).2
      = callsOf (loopIteration cdc check net2 botID chatID event t).2 ∧
    requestsOf (loopIteration cdc check net1 botID chatID event t).2
      = requestsOf (loopIteration cdc check net2 botID chatID event t).2 ∧
    listen cdc check net1 botID chatID (event :: rest) t
      = listen cdc check net1 botID chatID rest (loopIteration cdc check net1 botID chatID event t).2 := by
  have hc : len be.AuctionStartAuctionID ≤ companionLen be :=
    companionLen_ge be _ (by omega) (by omega) (by omega) (by omega)
  have h1 : ∀ net : Network, loopIteration cdc check net botID chatID event t
      = (.Listening, ((List.range N).map (alertAt be)).foldl (notify check net botID chatID) t) := by
    intro net
    rw [loopIteration_decoded cdc check net botID chatID event bz be t hm hu,
      handleBlockEvents_aligned check net botID chatID be t hc, hid]
  refine ⟨by rw [h1], ?_, ?_, ?_, ?_, ?_⟩
  · rw [h1, alertsOf_foldl_notify]
  · rw [h1, callsOf_foldl_notify, List.map_map]
    rfl
  · rw [h1, h1, callsOf_foldl_notify, callsOf_foldl_notify]
  · rw [h1, h1, requestsOf_foldl_notify, requestsOf_foldl_notify]
  · simp only [listen, h1]

/-- C5, on two occurrences of which the second attempt fails: both attempts are made, as on a
network without failures, and the next batch is processed. -/
theorem C5_delivery_failures_absorbed_witness :
    (scriptedCodec.MarshalJSONIndent (.ok twoAuctions) = .ok (.ok twoAuctions) ∧
      scriptedCodec.UnmarshalJSON (.ok twoAuctions) = .ok twoAuctions ∧
      len twoAuctions.AuctionStartAuctionID = 2 ∧ len twoAuctions.AuctionStartAuctionType = 2 ∧
      len twoAuctions.AuctionStartBid = 2 ∧ len twoAuctions.AuctionStartLot = 2 ∧
      len twoAuctions.AuctionStartMaxBid = 2) ∧
    ((loopIteration scriptedCodec goURLCheck secondAttemptFails "bot" "chat" (.ok twoAuctions) []).1
        = .Listening ∧
      alertsOf (loopIteration scriptedCodec goURLCheck secondAttemptFails "bot" "chat" (.ok twoAuctions) []).2
        = alertsOf [] ++ (List.range 2).map (alertAt twoAuctions) ∧
      callsOf (loopIteration scriptedCodec goURLCheck secondAttemptFails "bot" "chat" (.ok twoAuctions) []).2
        = callsOf [] ++
          (List.range 2).map (fun i => ("bot", "chat", (alertAt twoAuctions i).String)) ∧
      callsOf (loopIteration scriptedCodec goURLCheck secondAttemptFails "bot" "chat" (.ok twoAuctions) []).2
        = callsOf (loopIteration scriptedCodec goURLCheck reliableNetwork "bot" "chat"
            (.ok twoAuctions) []).2 ∧
      requestsOf
          (loopIteration scriptedCodec goURLCheck secondAttemptFails "bot" "chat" (.ok twoAuctions) []).2
        = requestsOf (loopIteration scriptedCodec goURLCheck reliableNetwork "bot" "chat"
            (.ok twoAuctions) []).2 ∧
      listen scriptedCodec goURLCheck secondAttemptFails "bot" "chat" [.ok twoAuctions, .ok exampleBatch] []
        = listen scriptedCodec goURLCheck secondAttemptFails "bot" "chat" [.ok exampleBatch]
            (loopIteration scriptedCodec goURLCheck secondAttemptFails "bot" "chat"
              (.ok twoAuctions) []).2) ∧
    (requestsOf (listen scriptedCodec goURLCheck secondAttemptFails "bot" "chat"
        [.ok twoAuctions, .ok exampleBatch] []).2).length = 3 :=
  ⟨⟨rfl, rfl, rfl, rfl, rfl, rfl, rfl⟩,
    C5_delivery_failures_absorbed scriptedCodec goURLCheck secondAttemptFails reliableNetwork
      "bot" "chat" (.ok twoAuctions) [.ok exampleBatch] (.ok twoAuctions) twoAuctions [] 2
      rfl rfl rfl rfl rfl rfl rfl,
    by decide⟩

/-- C6 as stated fails: on a batch whose decoding returns an error the loop does not stay in
the Listening state. The process ends at `log.Fatalf`, and a following batch with an auction
is never processed. -/
theorem C6_counterexample :
    scriptedCodec.UnmarshalJSON (.error "unexpected end of JSON input")
      = .error "unexpected end of JSON input" ∧
    (loopIteration scriptedCodec goURLCheck reliableNetwork "bot" "chat"
        (.error "unexpected end of JSON input") []).1 ≠ .Listening ∧
    listen scriptedCodec goURLCheck reliableNetwork "bot" "chat"
        [.error "unexpected end of JSON input", .ok exampleBatch] []
      = (.Terminated (.fatal 1),
          [Event.fatalf "failed to unmarshal from events: unexpected end of JSON input "]) ∧
    listen scriptedCodec goURLCheck reliableNetwork "bot" "chat"
        [.error "unexpected end of JSON input", .ok exampleBatch] []
      ≠ listen scriptedCodec goURLCheck reliableNetwork "bot" "chat" [.ok exampleBatch]
          (loopIteration scriptedCodec goURLCheck reliableNetwork "bot" "chat"
            (.error "unexpected end of JSON input") []).2 :=
  ⟨rfl, by decide, by decide, by decide⟩

/-- C6, amended: when the decoding of a received batch returns an error, the failure is logged
through `log.Fatalf`, no alert is built and no notification is sent, and the process ends with
exit status 1: the loop leaves the Listening state and receives no further batch. -/
theorem C6_decode_failure_is_fatal {Events Bytes : Type} (cdc : Codec Events Bytes)
    (check : URLCheck) (net : Network) (botID chatID : String) (event : Events) (rest : List Events) (bz : Bytes)
    (err : String) (t : Trace)
    (hm : cdc.MarshalJSONIndent event = .ok bz) (hu : cdc.UnmarshalJSON bz = .error err) :
    loopIteration cdc check net botID chatID event t
      = (.Terminated (.fatal 1), t ++ [Event.fatalf ("failed to unmarshal from events: " ++ err ++ " ")]) ∧
    alertsOf (loopIteration cdc check net botID chatID event t).2 = alertsOf t ∧
    callsOf (loopIteration cdc check net botID chatID event t).2 = callsOf t ∧
    requestsOf (loopIteration cdc check net botID chatID event t).2 = requestsOf t ∧
    listen cdc check net botID chatID (event :: rest) t = loopIteration cdc check net botID chatID event t := by
  have hfmt : Sprintf "failed to unmarshal from events: %s " [err]
      = "failed to unmarshal from events: " ++ err ++ " " := by
    simp only [String.append_assoc]
    rfl
  have h1 : loopIteration cdc check net botID chatID event t
      = (.Terminated (.fatal 1),
          t ++ [Event.fatalf ("failed to unmarshal from events: " ++ err ++ " ")]) := by
    simp only [loopIteration, hm, hu, hfmt]
  refine ⟨h1, ?_, ?_, ?_, ?_⟩
  · rw [h1]; simp [alertsOf]
  · rw [h1]; simp [callsOf]
  · rw [h1]; simp [requestsOf]
  · simp only [listen, h1]

/-- C6 amended, on a batch whose decoding fails, followed by a batch with an auction. -/
theorem C6_decode_failure_is_fatal_witness :
    (scriptedCodec.MarshalJSONIndent (.error "unexpected end of JSON input")
        = .ok (.error "unexpected end of JSON input") ∧
      scriptedCodec.UnmarshalJSON (.error "unexpected end of JSON input")
        = .error "unexpected end of JSON input") ∧
    (loopIteration scriptedCodec goURLCheck reliableNetwork "bot" "chat"
        (.error "unexpected end of JSON input") []
      = (.Terminated (.fatal 1), [] ++ [Event.fatalf
          ("failed to unmarshal from events: " ++ "unexpected end of JSON input" ++ " ")]) ∧
    alertsOf (loopIteration scriptedCodec goURLCheck reliableNetwork "bot" "chat"
        (.error "unexpected end of JSON input") []).2 = alertsOf [] ∧
    callsOf (loopIteration scriptedCodec goURLCheck reliableNetwork "bot" "chat"
        (.error "unexpected end of JSON input") []).2 = callsOf [] ∧
    requestsOf (loopIteration scriptedCodec goURLCheck reliableNetwork "bot" "chat"
        (.error "unexpected end of JSON input") []).2 = requestsOf [] ∧
    listen scriptedCodec goURLCheck reliableNetwork "bot" "chat"
        (.error "unexpected end of JSON input" :: [.ok exampleBatch]) []
      = loopIteration scriptedCodec goURLCheck reliableNetwork "bot" "chat"
          (.error "unexpected end of JSON input") []) :=
  ⟨⟨rfl, rfl⟩,
    C6_decode_failure_is_fatal scriptedCodec goURLCheck reliableNetwork "bot" "chat"
      (.error "unexpected end of JSON input") [.ok exampleBatch]
      (.error "unexpected end of JSON input") "unexpected end of JSON input" [] rfl rfl⟩

/-- C7: for a well-formed batch with `N` occurrences, the calls of the notifier made while the
batch is processed are `SendTelegramMessage(botID, chatID, alert_i.String())` for
`i = 0, ..., N-1` in that order, and the whole processing is the sequence, occurrence after
occurrence, of logging the alert and running the call to its end. -/
theorem C7_calls_in_array_order (check : URLCheck) (net : Network) (botID chatID : String) (be : BlockEvents)
    (t : Trace) (N : Nat)
    (hid : len be.AuctionStartAuctionID = N) (hty : len be.AuctionStartAuctionType = N)
    (hbid : len be.AuctionStartBid = N) (hlot : len be.AuctionStartLot = N)
    (hmax : len be.AuctionStartMaxBid = N) :
    callsOf (handleBlockEvents check net botID chatID be t).1
      = callsOf t ++ (List.range N).map (fun i => (botID, chatID, (alertAt be i).String)) ∧
    (handleBlockEvents check net botID chatID be t).1
      = ((List.range N).map (alertAt be)).foldl
          (fun tr alert =>
            SendTelegramMessage check net botID chatID alert.String (tr ++ [Event.println alert])) t := by
  have hc : len be.AuctionStartAuctionID ≤ companionLen be :=
    companionLen_ge be _ (by omega) (by omega) (by omega) (by omega)
  rw [handleBlockEvents_aligned check net botID chatID be t hc, hid]
  refine ⟨?_, rfl⟩
  rw [callsOf_foldl_notify, List.map_map]
  rfl

/-- C7, on a batch with two auctions: the two calls, in array order. -/
theorem C7_calls_in_array_order_witness :
    (len twoAuctions.AuctionStartAuctionID = 2 ∧ len twoAuctions.AuctionStartAuctionType = 2 ∧
      len twoAuctions.AuctionStartBid = 2 ∧ len twoAuctions.AuctionStartLot = 2 ∧
      len twoAuctions.AuctionStartMaxBid = 2) ∧
    (callsOf (handleBlockEvents goURLCheck reliableNetwork "bot" "chat" twoAuctions []).1
      = callsOf [] ++
          (List.range 2).map (fun i => ("bot", "chat", (alertAt twoAuctions i).String)) ∧
    (handleBlockEvents goURLCheck reliableNetwork "bot" "chat" twoAuctions []).1
      = ((List.range 2).map (alertAt twoAuctions)).foldl
          (fun tr alert =>
            SendTelegramMessage goURLCheck reliableNetwork "bot" "chat" alert.String
              (tr ++ [Event.println alert])) []) ∧
    callsOf (handleBlockEvents goURLCheck reliableNetwork "bot" "chat" twoAuctions []).1
      = [("bot", "chat",
          (AuctionAlert.mk "7" "collateral" "100ukava" "50ukava" "500ukava").String),
         ("bot", "chat", (AuctionAlert.mk "8" "surplus" "0ukava" "9ukava" "600ukava").String)] :=
  ⟨⟨rfl, rfl, rfl, rfl, rfl⟩,
    C7_calls_in_array_order goURLCheck reliableNetwork "bot" "chat" twoAuctions [] 2 rfl rfl rfl rfl rfl,
    by decide⟩

/-- C9: processing a decoded batch raises no index-out-of-range panic exactly when each of the
four companion arrays is at least as long as the identifier array; when one of them is
shorter, the panic is raised at index `k`, the smallest companion length, after exactly `k`
calls of the notifier. -/
theorem C9_index_panic_iff_short_companion (check : URLCheck) (net : Network) (botID chatID : String)
    (be : BlockEvents) (t : Trace) :
    ((handleBlockEvents check net botID chatID be t).2 = none ↔
      (len be.AuctionStartAuctionID ≤ len be.AuctionStartAuctionType ∧
        len be.AuctionStartAuctionID ≤ len be.AuctionStartBid ∧
        len be.AuctionStartAuctionID ≤ len be.AuctionStartLot ∧
        len be.AuctionStartAuctionID ≤ len be.AuctionStartMaxBid)) ∧
    (companionLen be < len be.AuctionStartAuctionID →
      (∃ n, (handleBlockEvents check net botID chatID be t).2
        = some (.indexOutOfRange (companionLen be) n)) ∧
      callsOf (handleBlockEvents check net botID chatID be t).1
        = callsOf t ++
          (List.range (companionLen be)).map (fun i => (botID, chatID, (alertAt be i).String)) ∧
      (callsOf (handleBlockEvents check net botID chatID be t).1).length
        = (callsOf t).length + companionLen be) := by
  have hshort : companionLen be < len be.AuctionStartAuctionID →
      (∃ n, (handleBlockEvents check net botID chatID be t).2
        = some (.indexOutOfRange (companionLen be) n)) ∧
      callsOf (handleBlockEvents check net botID chatID be t).1
        = callsOf t ++
          (List.range (companionLen be)).map (fun i => (botID, chatID, (alertAt be i).String)) ∧
      (callsOf (handleBlockEvents check net botID chatID be t).1).length
        = (callsOf t).length + companionLen be := by
    intro h
    obtain ⟨n, hn⟩ := handleBlockEvents_short check net botID chatID be t h
    rw [hn]
    refine ⟨⟨n, rfl⟩, ?_, ?_⟩
    · rw [callsOf_foldl_notify, List.map_map]
      rfl
    · rw [callsOf_foldl_notify]
      simp
  refine ⟨?_, hshort⟩
  by_cases hc : len be.AuctionStartAuctionID ≤ companionLen be
  · rw [handleBlockEvents_aligned check net botID chatID be t hc]
    simp only [companionLen, le_min_iff] at hc
    simp only [true_iff]
    exact hc
  · obtain ⟨⟨n, hn⟩, _⟩ := hshort (by omega)
    rw [hn]
    simp only [companionLen, le_min_iff] at hc
    constructor
    · intro h
      cases h
    · intro h
      exact absurd h hc

/-- C9, on a batch with three identifiers and a single bid: the panic is raised at index 1,
after one call of the notifier. -/
theorem C9_index_panic_iff_short_companion_witness :
    companionLen shortBatch < len shortBatch.AuctionStartAuctionID ∧
    ((∃ n, (handleBlockEvents goURLCheck reliableNetwork "bot" "chat" shortBatch []).2
        = some (.indexOutOfRange (companionLen shortBatch) n)) ∧
      callsOf (handleBlockEvents goURLCheck reliableNetwork "bot" "chat" shortBatch []).1
        = callsOf [] ++ (List.range (companionLen shortBatch)).map
            (fun i => ("bot", "chat", (alertAt shortBatch i).String)) ∧
      (callsOf (handleBlockEvents goURLCheck reliableNetwork "bot" "chat" shortBatch []).1).length
        = (callsOf []).length + companionLen shortBatch) ∧
    companionLen shortBatch = 1 ∧
    (handleBlockEvents goURLCheck reliableNetwork "bot" "chat" shortBatch []).2
      = some (.indexOutOfRange 1 1) :=
  ⟨by decide,
    (C9_index_panic_iff_short_companion goURLCheck reliableNetwork "bot" "chat" shortBatch []).2 (by decide),
    by decide, by decide⟩

/-- C10 as stated fails: with the non-empty bot identifier `%` the endpoint is not a URL
(its percent escape is invalid), `httpClient.PostForm` returns the parse error and no request
is made: a well-formed batch of two occurrences gives two calls of the notifier and zero
requests, not two. -/
theorem C10_counterexample :
    ("%" ≠ "" ∧ "chat" ≠ "") ∧
    (len twoAuctions.AuctionStartAuctionID = 2 ∧ len twoAuctions.AuctionStartAuctionType = 2 ∧
      len twoAuctions.AuctionStartBid = 2 ∧ len twoAuctions.AuctionStartLot = 2 ∧
      len twoAuctions.AuctionStartMaxBid = 2) ∧
    telegramEndPoint "%" = "https://api.telegram.org/bot%/sendMessage" ∧
    goURLCheck (telegramEndPoint "%")
      = some "parse \"https://api.telegram.org/bot%/sendMessage\": invalid URL escape \"%/s\"" ∧
    (callsOf (handleBlockEvents goURLCheck reliableNetwork "%" "chat" twoAuctions []).1).length
      = 2 ∧
    requestsOf (handleBlockEvents goURLCheck reliableNetwork "%" "chat" twoAuctions []).1 = [] ∧
    (requestsOf (handleBlockEvents goURLCheck reliableNetwork "%" "chat" twoAuctions []).1).length
      ≠ (requestsOf []).length + 2 :=
  ⟨by decide, by decide, by decide, by decide, by decide, by decide, by decide⟩

/-- C10, amended: the text of every alert is non-empty, so the loop never hands an empty
message to the notifier; for a well-formed batch with `N` occurrences and non-empty bot and
chat identifiers, `N` requests are made (one per occurrence, in order) when the endpoint built
from the bot identifier passes the URL check of the HTTP client, and none when it fails it;
when the bot or the chat identifier is empty no request is made. -/
theorem C10_one_request_per_accepted_endpoint (check : URLCheck) (net : Network)
    (botID chatID : String) (be : BlockEvents) (t : Trace) (N : Nat)
    (hid : len be.AuctionStartAuctionID = N) (hty : len be.AuctionStartAuctionType = N)
    (hbid : len be.AuctionStartBid = N) (hlot : len be.AuctionStartLot = N)
    (hmax : len be.AuctionStartMaxBid = N) :
    (∀ a : AuctionAlert, a.String ≠ "") ∧
    (AuctionAlert.mk "" "" "" "" "").String ≠ "" ∧
    (∀ c ∈ callsOf (handleBlockEvents check net botID chatID be t).1,
      c ∈ callsOf t ∨ c.2.2 ≠ "") ∧
    (botID ≠ "" → chatID ≠ "" → check (telegramEndPoint botID) = none →
      requestsOf (handleBlockEvents check net botID chatID be t).1
        = requestsOf t ++
          (List.range N).map (fun i => telegramRequest botID chatID (alertAt be i).String) ∧
      (requestsOf (handleBlockEvents check net botID chatID be t).1).length
        = (requestsOf t).length + N) ∧
    (check (telegramEndPoint botID) ≠ none →
      requestsOf (handleBlockEvents check net botID chatID be t).1 = requestsOf t) ∧
    (botID = "" ∨ chatID = "" →
      requestsOf (handleBlockEvents check net botID chatID be t).1 = requestsOf t) := by
  have hc : len be.AuctionStartAuctionID ≤ companionLen be :=
    companionLen_ge be _ (by omega) (by omega) (by omega) (by omega)
  rw [handleBlockEvents_aligned check net botID chatID be t hc, hid]
  refine ⟨String_ne_empty, String_ne_empty _, ?_, ?_, ?_, ?_⟩
  · intro c hcall
    rw [callsOf_foldl_notify, List.mem_append] at hcall
    rcases hcall with h | h
    · exact Or.inl h
    · right
      simp only [List.mem_map] at h
      obtain ⟨a, ⟨i, _, rfl⟩, rfl⟩ := h
      exact String_ne_empty _
  · intro hb hch hacc
    have hg : ¬ (botID = "" ∨ chatID = "" ∨ (check (telegramEndPoint botID)).isSome) := by
      simp [hb, hch, hacc]
    rw [requestsOf_foldl_notify, if_neg hg, List.map_map]
    refine ⟨rfl, ?_⟩
    simp
  · intro hrej
    have hg : botID = "" ∨ chatID = "" ∨ (check (telegramEndPoint botID)).isSome := by
      right; right
      cases hck : check (telegramEndPoint botID) with
      | none => exact absurd hck hrej
      | some e => rfl
    rw [requestsOf_foldl_notify, if_pos hg]
    simp
  · intro h
    have hg : botID = "" ∨ chatID = "" ∨ (check (telegramEndPoint botID)).isSome := by
      rcases h with h | h
      · exact Or.inl h
      · exact Or.inr (Or.inl h)
    rw [requestsOf_foldl_notify, if_pos hg]
    simp

/-- C10 amended, on a batch with two auctions: two requests with the bot identifier `bot`,
whose endpoint is a URL, none when the chat identifier is empty. -/
theorem C10_one_request_per_accepted_endpoint_witness :
    (len twoAuctions.AuctionStartAuctionID = 2 ∧ len twoAuctions.AuctionStartAuctionType = 2 ∧
      len twoAuctions.AuctionStartBid = 2 ∧ len twoAuctions.AuctionStartLot = 2 ∧
      len twoAuctions.AuctionStartMaxBid = 2) ∧
    ("bot" ≠ "" ∧ "chat" ≠ "" ∧ goURLCheck (telegramEndPoint "bot") = none) ∧
    (requestsOf (handleBlockEvents goURLCheck secondAttemptFails "bot" "chat" twoAuctions []).1
        = requestsOf [] ++
          (List.range 2).map
            (fun i => telegramRequest "bot" "chat" (alertAt twoAuctions i).String) ∧
      (requestsOf
          (handleBlockEvents goURLCheck secondAttemptFails "bot" "chat" twoAuctions []).1).length
        = (requestsOf []).length + 2) ∧
    (requestsOf
        (handleBlockEvents goURLCheck secondAttemptFails "bot" "" twoAuctions []).1).length = 0 :=
  ⟨⟨rfl, rfl, rfl, rfl, rfl⟩, ⟨by decide, by decide, by decide⟩,
    (C10_one_request_per_accepted_endpoint goURLCheck secondAttemptFails "bot" "chat"
      twoAuctions [] 2 rfl rfl rfl rfl rfl).2.2.2.1 (by decide) (by decide) (by decide),
    by decide⟩

/-! ## Lemmas: the event codec -/

theorem Except_bind_eq_ok {ε α β : Type} (x : Except ε α) (f : α → Except ε β) (b : β) :
    (x >>= f) = .ok b ↔ ∃ a, x = .ok a ∧ f a = .ok b := by
  cases x <;> simp [bind, Except.bind]

theorem lookup_insert_other (p1 p2 : Payload) (k key : String) (v : RawValue) (h : key ≠ k) :
    (p1 ++ (k, v) :: p2).lookup key = (p1 ++ p2).lookup key := by
  induction p1 with
  | nil =>
    have hb : (key == k) = false := by simpa using h
    simp [List.lookup, hb]
  | cons e rest ih =>
    obtain ⟨a, b⟩ := e
    simp only [List.cons_append, List.lookup_cons, ih]

theorem decodeField_congr (p q : Payload) (key : String) (h : p.lookup key = q.lookup key) :
    decodeField p key = decodeField q key := by
  simp only [decodeField, h]

theorem decodeField_ok (p : Payload) (key : String) (h : p.lookup key ≠ some .other) :
    ∃ s, decodeField p key = .ok s := by
  unfold decodeField
  split
  · exact ⟨_, rfl⟩
  · exact ⟨_, rfl⟩
  · rename_i heq
    exact absurd heq h

theorem UnmarshalJSON_congr (p q : Payload)
    (h : ∀ key ∈ schemaKeys, p.lookup key = q.lookup key) :
    UnmarshalJSON p = UnmarshalJSON q := by
  have h1 := decodeField_congr p q "mint.bonded_ratio" (h _ (by decide))
  have h2 := decodeField_congr p q "proposer_reward.amount" (h _ (by decide))
  have h3 := decodeField_congr p q "commission.validator" (h _ (by decide))
  have h4 := decodeField_congr p q "kavadist.kava_dist_inflation" (h _ (by decide))
  have h5 := decodeField_congr p q "swaps_expired.atomic_swap_ids" (h _ (by decide))
  have h6 := decodeField_congr p q "swaps_expired.expiration_block" (h _ (by decide))
  have h7 := decodeField_congr p q "rewards.validator" (h _ (by decide))
  have h8 := decodeField_congr p q "liveness.missed_blocks" (h _ (by decide))
  have h9 := decodeField_congr p q "proposer_reward.validator" (h _ (by decide))
  have h10 := decodeField_congr p q "tm.event" (h _ (by decide))
  have h11 := decodeField_congr p q "transfer.recipient" (h _ (by decide))
  have h12 := decodeField_congr p q "mint.inflation" (h _ (by decide))
  have h13 := decodeField_congr p q "liveness.height" (h _ (by decide))
  have h14 := decodeField_congr p q "liveness.address" (h _ (by decide))
  have h15 := decodeField_congr p q "transfer.amount" (h _ (by decide))
  have h16 := decodeField_congr p q "message.sender" (h _ (by decide))
  have h17 := decodeField_congr p q "rewards.amount" (h _ (by decide))
  have h18 := decodeField_congr p q "mint.annual_provisions" (h _ (by decide))
  have h19 := decodeField_congr p q "commission.amount" (h _ (by decide))
  have h20 := decodeField_congr p q "mint.amount" (h _ (by decide))
  have h21 := decodeField_congr p q "auction_start.auction_id" (h _ (by decide))
  have h22 := decodeField_congr p q "auction_start.auction_type" (h _ (by decide))
  have h23 := decodeField_congr p q "auction_start.bid" (h _ (by decide))
  have h24 := decodeField_congr p q "auction_start.lot" (h _ (by decide))
  have h25 := decodeField_congr p q "auction_start.max_bid" (h _ (by decide))
  simp only [UnmarshalJSON, h1, h2, h3, h4, h5, h6, h7, h8, h9, h10, h11, h12, h13, h14, h15, h16, h17, h18, h19, h20, h21, h22, h23, h24, h25]

theorem UnmarshalJSON_ok (p : Payload) (h : ∀ key ∈ schemaKeys, p.lookup key ≠ some .other) :
    ∃ be, UnmarshalJSON p = .ok be := by
  obtain ⟨v1, h1⟩ := decodeField_ok p "mint.bonded_ratio" (h _ (by decide))
  obtain ⟨v2, h2⟩ := decodeField_ok p "proposer_reward.amount" (h _ (by decide))
  obtain ⟨v3, h3⟩ := decodeField_ok p "commission.validator" (h _ (by decide))
  obtain ⟨v4, h4⟩ := decodeField_ok p "kavadist.kava_dist_inflation" (h _ (by decide))
  obtain ⟨v5, h5⟩ := decodeField_ok p "swaps_expired.atomic_swap_ids" (h _ (by decide))
  obtain ⟨v6, h6⟩ := decodeField_ok p "swaps_expired.expiration_block" (h _ (by decide))
  obtain ⟨v7, h7⟩ := decodeField_ok p "rewards.validator" (h _ (by decide))
  obtain ⟨v8, h8⟩ := decodeField_ok p "liveness.missed_blocks" (h _ (by decide))
  obtain ⟨v9, h9⟩ := decodeField_ok p "proposer_reward.validator" (h _ (by decide))
  obtain ⟨v10, h10⟩ := decodeField_ok p "tm.event" (h _ (by decide))
  obtain ⟨v11, h11⟩ := decodeField_ok p "transfer.recipient" (h _ (by decide))
  obtain ⟨v12, h12⟩ := decodeField_ok p "mint.inflation" (h _ (by decide))
  obtain ⟨v13, h13⟩ := decodeField_ok p "liveness.height" (h _ (by decide))
  obtain ⟨v14, h14⟩ := decodeField_ok p "liveness.address" (h _ (by decide))
  obtain ⟨v15, h15⟩ := decodeField_ok p "transfer.amount" (h _ (by decide))
  obtain ⟨v16, h16⟩ := decodeField_ok p "message.sender" (h _ (by decide))
  obtain ⟨v17, h17⟩ := decodeField_ok p "rewards.amount" (h _ (by decide))
  obtain ⟨v18, h18⟩ := decodeField_ok p "mint.annual_provisions" (h _ (by decide))
  obtain ⟨v19, h19⟩ := decodeField_ok p "commission.amount" (h _ (by decide))
  obtain ⟨v20, h20⟩ := decodeField_ok p "mint.amount" (h _ (by decide))
  obtain ⟨v21, h21⟩ := decodeField_ok p "auction_start.auction_id" (h _ (by decide))
  obtain ⟨v22, h22⟩ := decodeField_ok p "auction_start.auction_type" (h _ (by decide))
  obtain ⟨v23, h23⟩ := decodeField_ok p "auction_start.bid" (h _ (by decide))
  obtain ⟨v24, h24⟩ := decodeField_ok p "auction_start.lot" (h _ (by decide))
  obtain ⟨v25, h25⟩ := decodeField_ok p "auction_start.max_bid" (h _ (by decide))
  refine ⟨BlockEvents.mk v1 v2 v3 v4 v5 v6 v7 v8 v9 v10 v11 v12 v13 v14 v15 v16 v17 v18 v19 v20 v21 v22 v23 v24 v25, ?_⟩
  simp only [UnmarshalJSON, h1, h2, h3, h4, h5, h6, h7, h8, h9, h10, h11, h12, h13, h14, h15, h16, h17, h18, h19, h20, h21, h22, h23, h24, h25]
  rfl

theorem UnmarshalJSON_auction_fields (p : Payload) (be : BlockEvents)
    (h : UnmarshalJSON p = .ok be) :
    decodeField p "auction_start.auction_id" = .ok be.AuctionStartAuctionID ∧
    decodeField p "auction_start.auction_type" = .ok be.AuctionStartAuctionType ∧
    decodeField p "auction_start.bid" = .ok be.AuctionStartBid ∧
    decodeField p "auction_start.lot" = .ok be.AuctionStartLot ∧
    decodeField p "auction_start.max_bid" = .ok be.AuctionStartMaxBid := by
  simp only [UnmarshalJSON, Except_bind_eq_ok] at h
  obtain ⟨v1, h1, v2, h2, v3, h3, v4, h4, v5, h5, v6, h6, v7, h7, v8, h8, v9, h9, v10, h10, v11, h11, v12, h12, v13, h13, v14, h14, v15, h15, v16, h16, v17, h17, v18, h18, v19, h19, v20, h20, v21, h21, v22, h22, v23, h23, v24, h24, v25, h25, heq⟩ := h
  have hbe : BlockEvents.mk v1 v2 v3 v4 v5 v6 v7 v8 v9 v10 v11 v12 v13 v14 v15 v16 v17 v18 v19 v20 v21 v22 v23 v24 v25 = be := by
    simpa [pure, Except.pure] using heq
  subst hbe
  exact ⟨h21, h22, h23, h24, h25⟩

theorem handleBlockEvents_congr (check : URLCheck) (net : Network) (botID chatID : String) (be be' : BlockEvents)
    (t : Trace)
    (h1 : be.AuctionStartAuctionID = be'.AuctionStartAuctionID)
    (h2 : be.AuctionStartAuctionType = be'.AuctionStartAuctionType)
    (h3 : be.AuctionStartBid = be'.AuctionStartBid)
    (h4 : be.AuctionStartLot = be'.AuctionStartLot)
    (h5 : be.AuctionStartMaxBid = be'.AuctionStartMaxBid) :
    handleBlockEvents check net botID chatID be t = handleBlockEvents check net botID chatID be' t := by
  have hb : loopBody check net botID chatID be = loopBody check net botID chatID be' := by
    funext idx tr
    simp only [loopBody, h1, h2, h3, h4, h5]
  simp only [handleBlockEvents, hb, h1]

/-- C8: decoding takes from the payload only the keys of the `BlockEvents` schema. Adding an
entry under any other key, anywhere in the payload, changes neither the result of decoding nor
what the loop does with the batch; two payloads that decode and agree on the five
`auction_start` keys are processed alike (same alerts, same calls, same outcome); and a payload
whose schema keys hold arrays of strings (or are absent) decodes, whatever other keys it has. -/
theorem C8_unknown_keys_dropped (check : URLCheck) (net : Network) (botID chatID : String) (t : Trace) :
    (∀ (p1 p2 : Payload) (k : String) (v : RawValue), k ∉ schemaKeys →
      UnmarshalJSON (p1 ++ (k, v) :: p2) = UnmarshalJSON (p1 ++ p2) ∧
      loopIteration eventCodec check net botID chatID (p1 ++ (k, v) :: p2) t
        = loopIteration eventCodec check net botID chatID (p1 ++ p2) t) ∧
    (∀ (p q : Payload) (bp bq : BlockEvents),
      UnmarshalJSON p = .ok bp → UnmarshalJSON q = .ok bq →
      (∀ key ∈ auctionKeys, p.lookup key = q.lookup key) →
      handleBlockEvents check net botID chatID bp t = handleBlockEvents check net botID chatID bq t ∧
      alertsOf (loopIteration eventCodec check net botID chatID p t).2
        = alertsOf (loopIteration eventCodec check net botID chatID q t).2) ∧
    (∀ p : Payload, (∀ key ∈ schemaKeys, p.lookup key ≠ some .other) →
      ∃ be, UnmarshalJSON p = .ok be) := by
  refine ⟨?_, ?_, UnmarshalJSON_ok⟩
  · intro p1 p2 k v hk
    have hd : UnmarshalJSON (p1 ++ (k, v) :: p2) = UnmarshalJSON (p1 ++ p2) := by
      apply UnmarshalJSON_congr
      intro key hkey
      apply lookup_insert_other
      intro heq
      exact hk (heq ▸ hkey)
    refine ⟨hd, ?_⟩
    simp only [loopIteration, eventCodec, hd]
  · intro p q bp bq hp hq hagree
    obtain ⟨p1, p2, p3, p4, p5⟩ := UnmarshalJSON_auction_fields p bp hp
    obtain ⟨q1, q2, q3, q4, q5⟩ := UnmarshalJSON_auction_fields q bq hq
    rw [decodeField_congr p q _ (hagree _ (by decide)), q1] at p1
    rw [decodeField_congr p q _ (hagree _ (by decide)), q2] at p2
    rw [decodeField_congr p q _ (hagree _ (by decide)), q3] at p3
    rw [decodeField_congr p q _ (hagree _ (by decide)), q4] at p4
    rw [decodeField_congr p q _ (hagree _ (by decide)), q5] at p5
    have hh := handleBlockEvents_congr check net botID chatID bp bq t
      (Except.ok.inj p1).symm (Except.ok.inj p2).symm (Except.ok.inj p3).symm
      (Except.ok.inj p4).symm (Except.ok.inj p5).symm
    refine ⟨hh, ?_⟩
    simp only [loopIteration, eventCodec, hp, hq, hh]

/-- C8, on the payload of the specification's example with an entry of an unknown key added
in front: it decodes to the same batch and yields the same single alert. -/
theorem C8_unknown_keys_dropped_witness :
    "ibc_transfer.packet" ∉ schemaKeys ∧
    (UnmarshalJSON ([] ++ ("ibc_transfer.packet", RawValue.other) :: examplePayload)
        = UnmarshalJSON ([] ++ examplePayload) ∧
      loopIteration eventCodec goURLCheck reliableNetwork "bot" "chat"
          ([] ++ ("ibc_transfer.packet", RawValue.other) :: examplePayload) []
        = loopIteration eventCodec goURLCheck reliableNetwork "bot" "chat" ([] ++ examplePayload) []) ∧
    UnmarshalJSON (("ibc_transfer.packet", RawValue.other) :: examplePayload) = .ok exampleBatch ∧
    alertsOf (loopIteration eventCodec goURLCheck reliableNetwork "bot" "chat"
        (("ibc_transfer.packet", RawValue.other) :: examplePayload) []).2
      = [AuctionAlert.mk "7" "collateral" "100ukava" "50ukava" "500ukava"] :=
  ⟨by decide,
    (C8_unknown_keys_dropped goURLCheck reliableNetwork "bot" "chat" []).1 [] examplePayload
      "ibc_transfer.packet" RawValue.other (by decide),
    rfl, by decide⟩

end Kvtool
